import Mathlib

/-!
Verification of the RBAC service in `rbac.js`: user data model, token
service, authentication/authorization middleware, and the service
operations (signup, login, profile, admin user management, moderator
views), shallowly embedded as pure Lean functions over an explicit
database state.  The external libraries (`bcrypt`, `jsonwebtoken`,
Mongoose persistence) are modelled at their interface: password hashing
and comparison are function parameters, signed tokens are an inductive
type carrying payload, timestamps and signing secret, and the Mongo
collection is a list of user records threaded through each handler.
-/

namespace RBAC

/-- A JSON-ish field value appearing in a response document. -/
inductive Value where
  | str (s : String)
  | bool (b : Bool)
  | nat (n : Nat)
deriving DecidableEq, Repr

/-- A JSON object in a response, as an ordered list of key/value pairs.
Representing user views as explicit key lists lets us state that the
`password` key never appears in any returned view. -/
abbrev Doc := List (String × Value)

/-- A stored user record, after the Mongoose schema of `rbac.js`
(`username`, `email`, `password` — which holds the bcrypt hash after the
pre-save hook — `role`, `isActive`, `createdAt`; `id` is the Mongo `_id`,
serialized as its string form). -/
structure User where
  id : String
  username : String
  email : String
  password : String
  role : String
  isActive : Bool
  createdAt : Nat
deriving DecidableEq, Repr

/-- The user collection: Mongo persistence modelled as an explicit list
of records threaded through each handler. -/
abbrev Db := List User

/-- The identity payload embedded in a JWT (`userId`, `username`,
`email`, `role`), as signed by the signup and login handlers. -/
structure Payload where
  userId : String
  username : String
  email : String
  role : String
deriving DecidableEq, Repr

/-- A token as produced/consumed by the `jsonwebtoken` library, modelled
at its interface: a signed token records the payload, the issued-at and
expiry timestamps (seconds), and the secret it was signed with; anything
else is malformed. -/
inductive Token where
  | signed (payload : Payload) (iat : Nat) (exp : Nat) (secret : String)
  | malformed (s : String)
deriving DecidableEq, Repr

/-- The process-wide signing secret constant of `rbac.js`. -/
def JWT_SECRET : String := "your-secret-key-change-this-in-production"

/-- `jwt.sign(payload, secret, expiresIn: 24h)`: the expiry claim is
issuance time plus 24 hours (86400 seconds). -/
def jwtSign (p : Payload) (secret : String) (now : Nat) : Token :=
  .signed p now (now + 86400) secret

/-- `jwt.verify(token, secret)` at clock time `now`: succeeds iff the
token is well formed, was signed with the same secret, and `now` is
strictly before the expiry claim (`jsonwebtoken` raises
`TokenExpiredError` once the clock reaches `exp`); returns the decoded
payload on success and `none` where the library throws. -/
def jwtVerify (t : Token) (secret : String) (now : Nat) : Option Payload :=
  match t with
  | .signed p _ exp s => if s = secret ∧ now < exp then some p else none
  | .malformed _ => none

/-- A structured response: HTTP status plus the JSON body fields used by
the handlers of `rbac.js` (`success`, `message`, `user`, `users`,
`token`, `count`, and the `stats` object of the admin user listing,
flattened into its five counters). -/
structure Response where
  status : Nat
  success : Bool
  message : Option String := none
  user : Option Doc := none
  users : List Doc := []
  token : Option Token := none
  count : Option Nat := none
  statsTotal : Option Nat := none
  statsActive : Option Nat := none
  statsAdmins : Option Nat := none
  statsUsers : Option Nat := none
  statsModerators : Option Nat := none
deriving DecidableEq, Repr

/-- An error response: `res.status(st).json(success: false, message)`. -/
def errResp (st : Nat) (msg : String) : Response :=
  { status := st, success := false, message := some msg }

/-- Splits a character list at every character satisfying `p`, keeping
empty fragments, as JavaScript `String.prototype.split` does with a
single-character separator.  `acc` holds the current fragment
reversed. -/
def splitByAux (p : Char → Bool) : List Char → List Char → List String
  | [], acc => [⟨acc.reverse⟩]
  | c :: cs, acc =>
    if p c then ⟨acc.reverse⟩ :: splitByAux p cs []
    else splitByAux p cs (c :: acc)

/-- String splitting on the characters satisfying `p`, keeping empty
fragments (`splitBy (fun c => c == ' ') "a  b" = ["a", "", "b"]`). -/
def splitBy (p : Char → Bool) (s : String) : List String :=
  splitByAux p s.toList []

/-- JavaScript `String.prototype.trim`: strip whitespace from both
ends. -/
def jsTrim (s : String) : String :=
  ⟨((s.toList.dropWhile Char.isWhitespace).reverse.dropWhile Char.isWhitespace).reverse⟩

/-- JavaScript `String.prototype.toLowerCase`, as applied by the
Mongoose `lowercase` setter. -/
def jsToLower (s : String) : String :=
  ⟨s.toList.map Char.toLower⟩

/-- Token extraction of the authentication middleware:
`req.headers.authorization?.split(' ')[1]` followed by the `!token`
falsiness test.  JavaScript `split(' ')` splits on single space
characters (keeping empty fragments), so the extracted value is the
element at index 1 of that split; a missing header, a missing index-1
element, or an empty-string element all count as "no token". -/
def extractToken (header : Option String) : Option String :=
  match header with
  | none => none
  | some h =>
    match (splitBy (fun c => c == ' ') h).get? 1 with
    | none => none
    | some t => if t = "" then none else some t

/-- The `authenticate` middleware, parametrized by the bound token
verifier (`jwt.verify` with the process secret and current clock):
401 when no token is extracted, 403 when verification throws, otherwise
the decoded identity is attached and control passes on (`Except.ok`). -/
def authenticate (verify : String → Option Payload) (header : Option String) :
    Except Response Payload :=
  match extractToken header with
  | none => .error (errResp 401 "Access denied. No token provided.")
  | some t =>
    match verify t with
    | none => .error (errResp 403 "Invalid or expired token.")
    | some p => .ok p

/-- The `authorize(...roles)` middleware: 401 when no identity is
attached, 403 with the joined role list when the identity's role is not
in the accepted set, `none` (pass-through) otherwise. -/
def authorize (roles : List String) (user : Option Payload) : Option Response :=
  match user with
  | none => some (errResp 401 "User not authenticated.")
  | some p =>
    if p.role ∈ roles then none
    else some (errResp 403 ("Access denied. Required role: " ++ String.intercalate " or " roles))

/-- An Express route guarded by `authenticate` then `authorize(roles)`:
a middleware rejection is returned with the database untouched, and only
when both gates pass does the handler run with the attached identity. -/
def runProtected (verify : String → Option Payload) (roles : List String)
    (handler : Payload → Db → Response × Db) (header : Option String) (db : Db) :
    Response × Db :=
  match authenticate verify header with
  | .error r => (r, db)
  | .ok p =>
    match authorize roles (some p) with
    | some r => (r, db)
    | none => handler p db

/-- The explicit public user object built by the signup and login
handlers: `id`, `username`, `email`, `role`. -/
def publicDoc (u : User) : Doc :=
  [("id", .str u.id), ("username", .str u.username),
   ("email", .str u.email), ("role", .str u.role)]

/-- A user record as returned by `.select('-password')`: every schema
field except the password hash. -/
def docMinusPassword (u : User) : Doc :=
  [("id", .str u.id), ("username", .str u.username),
   ("email", .str u.email), ("role", .str u.role),
   ("isActive", .bool u.isActive), ("createdAt", .nat u.createdAt)]

/-- `User.findOne(email)`: first record with that email. -/
def findByEmail (db : Db) (email : String) : Option User :=
  db.find? fun u => u.email == email

/-- `User.findById(id)`: first record with that id. -/
def findById (db : Db) (id : String) : Option User :=
  db.find? fun u => u.id == id

/-- The closed role set of the schema's `enum` and of the role-change
handler's validation list. -/
def roleEnum : List String := ["user", "admin", "moderator"]

/-- The email `match` validator `/.+\@.+\..+/` of the schema: the string
contains, in order, a nonempty prefix, an `@`, a nonempty middle, a `.`,
and a nonempty suffix. -/
def emailMatch (s : String) : Bool :=
  let cs := s.toList
  (List.range cs.length).any fun i =>
    decide (1 ≤ i) && (cs.get? i == some '@') &&
      ((List.range cs.length).any fun j =>
        decide (i + 1 < j) && decide (j + 1 < cs.length) && (cs.get? j == some '.'))

/-- The `POST /signup` request body.  Fields are optional: an absent
field is `undefined` in the handler's destructuring (the `role` field
defaults to `"user"` there). -/
structure SignupBody where
  username : Option String
  email : Option String
  password : Option String
  role : Option String
deriving DecidableEq, Repr

/-- The `POST /signup` handler.  `hash` is the bcrypt pre-save hook
(salted hashing modelled as an abstract function), `secretKey` the JWT
signing secret, `now` the clock, `newId` the `_id` Mongo assigns to the
new document.  The handler maps a requested `admin` role to `user`, then
`user.save()` runs the Mongoose schema validation — `required` (present
and nonempty after the `trim`/`lowercase` setters), the email `match`
regex, password `minlength` 6 (on the plaintext, since validation runs
before the pre-save hash hook), the role `enum` — and the unique indexes
on `username`/`email`; any failure is caught and returned as 400 with
the database unchanged. -/
def signup (hash : String → String) (secretKey : String) (now : Nat) (newId : String)
    (b : SignupBody) (db : Db) : Response × Db :=
  let role0 := b.role.getD "user"
  let userRole := if role0 = "admin" then "user" else role0
  match b.username, b.email, b.password with
  | some un, some em, some pw =>
    let uname := jsTrim un
    let mail := jsToLower em
    if uname = "" ∨ mail = "" ∨ pw = "" then
      (errResp 400 "User validation failed: path is required", db)
    else if ¬ emailMatch mail then
      (errResp 400 "User validation failed: email is invalid", db)
    else if pw.length < 6 then
      (errResp 400 "User validation failed: password is shorter than the minimum allowed length", db)
    else if userRole ∉ roleEnum then
      (errResp 400 "User validation failed: role is not a valid enum value", db)
    else if ∃ u ∈ db, u.username = uname ∨ u.email = mail then
      (errResp 400 "E11000 duplicate key error", db)
    else
      let u : User :=
        { id := newId, username := uname, email := mail, password := hash pw,
          role := userRole, isActive := true, createdAt := now }
      let tok := jwtSign
        { userId := u.id, username := u.username, email := u.email, role := u.role }
        secretKey now
      ({ status := 201, success := true,
         message := some "User registered successfully",
         user := some (publicDoc u), token := some tok }, db ++ [u])
  | _, _, _ => (errResp 400 "User validation failed: path is required", db)

/-- The `POST /login` handler.  `compare` is `bcrypt.compare` (candidate
plaintext against the stored hash).  Lookup by email; a missing user and
a password mismatch both yield the same 401 "Invalid credentials"; a
deactivated account yields 403 before the password is ever compared; on
success a fresh 24h token is signed over the current record. -/
def login (compare : String → String → Bool) (secretKey : String) (now : Nat)
    (email password : String) (db : Db) : Response × Db :=
  match findByEmail db email with
  | none => (errResp 401 "Invalid credentials", db)
  | some u =>
    if ¬ u.isActive then
      (errResp 403 "Account is deactivated", db)
    else if ¬ compare password u.password then
      (errResp 401 "Invalid credentials", db)
    else
      let tok := jwtSign
        { userId := u.id, username := u.username, email := u.email, role := u.role }
        secretKey now
      ({ status := 200, success := true, message := some "Login successful",
         user := some (publicDoc u), token := some tok }, db)

/-- The `GET /profile` handler: own record minus password; the handler
performs no null check, so a missing record yields a 200 with a null
user. -/
def getProfile (p : Payload) (db : Db) : Response × Db :=
  ({ status := 200, success := true,
     user := (findById db p.userId).map docMinusPassword }, db)

/-- The `PUT /profile` handler: `findByIdAndUpdate` of own `username`
and `email` with `runValidators` (undefined body fields are stripped
from the update; the `trim`/`lowercase` setters and the `required` and
email-`match` validators apply to updated paths; the unique indexes
still apply), returning the new record minus password.  As in the code,
a missing record yields a 200 with a null user. -/
def updateProfile (p : Payload) (busername bemail : Option String) (db : Db) :
    Response × Db :=
  let uname? := busername.map jsTrim
  let mail? := bemail.map jsToLower
  if uname? = some "" then
    (errResp 400 "User validation failed: path is required", db)
  else if (match mail? with | some m => m == "" || ! emailMatch m | none => false) then
    (errResp 400 "User validation failed: email is invalid", db)
  else
    match findById db p.userId with
    | none =>
      ({ status := 200, success := true,
         message := some "Profile updated successfully", user := none }, db)
    | some u =>
      let u' : User := { u with username := uname?.getD u.username,
                                email := mail?.getD u.email }
      if ∃ v ∈ db, v.id ≠ u.id ∧ (v.username = u'.username ∨ v.email = u'.email) then
        (errResp 400 "E11000 duplicate key error", db)
      else
        ({ status := 200, success := true,
           message := some "Profile updated successfully",
           user := some (docMinusPassword u') },
         db.map fun v => if v.id == u.id then u' else v)

/-- The `GET /admin/users` handler: all records minus password, plus the
aggregate statistics object. -/
def adminListUsers (db : Db) : Response × Db :=
  ({ status := 200, success := true,
     users := db.map docMinusPassword,
     statsTotal := some db.length,
     statsActive := some (db.filter (fun u => u.isActive)).length,
     statsAdmins := some (db.filter (fun u => u.role == "admin")).length,
     statsUsers := some (db.filter (fun u => u.role == "user")).length,
     statsModerators := some (db.filter (fun u => u.role == "moderator")).length }, db)

/-- The `PUT /admin/users/:id/role` handler: the self-targeting guard
fires first, then the closed-set validation of the requested role (an
absent role is not in the list), then `findByIdAndUpdate` of the role
with the updated record minus password in the response. -/
def adminChangeRole (p : Payload) (brole : Option String) (targetId : String)
    (db : Db) : Response × Db :=
  if targetId = p.userId then
    (errResp 400 "Cannot modify your own role", db)
  else
    match brole with
    | some r =>
      if r ∈ roleEnum then
        match findById db targetId with
        | none => (errResp 404 "User not found", db)
        | some u =>
          let u' : User := { u with role := r }
          ({ status := 200, success := true,
             message := some ("User role updated to " ++ r),
             user := some (docMinusPassword u') },
           db.map fun v => if v.id == targetId then u' else v)
      else (errResp 400 "Invalid role", db)
    | none => (errResp 400 "Invalid role", db)

/-- The `PUT /admin/users/:id/status` handler: the self-targeting guard
fires first, then `findByIdAndUpdate` of `isActive` (an undefined body
value is stripped, leaving the record unchanged; the success message
follows the truthiness of the body value). -/
def adminToggleStatus (p : Payload) (bIsActive : Option Bool) (targetId : String)
    (db : Db) : Response × Db :=
  if targetId = p.userId then
    (errResp 400 "Cannot deactivate yourself", db)
  else
    match findById db targetId with
    | none => (errResp 404 "User not found", db)
    | some u =>
      let u' : User := match bIsActive with
        | some b => { u with isActive := b }
        | none => u
      ({ status := 200, success := true,
         message := some ("User " ++
           (if bIsActive.getD false then "activated" else "deactivated") ++
           " successfully"),
         user := some (docMinusPassword u') },
       db.map fun v => if v.id == targetId then u' else v)

/-- The `DELETE /admin/users/:id` handler: the self-targeting guard
fires first, then `findByIdAndDelete` removes the record (404 when
absent). -/
def adminDeleteUser (p : Payload) (targetId : String) (db : Db) : Response × Db :=
  if targetId = p.userId then
    (errResp 400 "Cannot delete yourself", db)
  else
    match findById db targetId with
    | none => (errResp 404 "User not found", db)
    | some _ =>
      ({ status := 200, success := true,
         message := some "User deleted successfully" },
       db.eraseP fun v => v.id == targetId)

/-- The `GET /moderator/users/active` handler: all active records minus
password, with their count. -/
def moderatorActiveUsers (db : Db) : Response × Db :=
  let us := (db.filter fun u => u.isActive).map docMinusPassword
  ({ status := 200, success := true, count := some us.length, users := us }, db)

/-- The `PUT /admin/users/:id/role` route as wired in Express:
`authenticate`, then `authorize('admin')`, then the role-change
handler. -/
def roleChangeEndpoint (verify : String → Option Payload) (header : Option String)
    (brole : Option String) (targetId : String) (db : Db) : Response × Db :=
  runProtected verify ["admin"] (fun p => adminChangeRole p brole targetId) header db

/-- The second whitespace-delimited field of the `Authorization` header,
following the specification's words: fields are the maximal runs of
non-whitespace characters. Stated for comparison against the source's
`extractToken`. -/
def wsSecondField (header : Option String) : Option String :=
  header.bind fun h => ((splitBy Char.isWhitespace h).filter (fun t => t ≠ "")).get? 1

/-! ### Concrete fixtures used by the witness theorems -/

/-- A sample admin identity payload. -/
def aliceP : Payload :=
  { userId := "u1", username := "alice", email := "a@x.com", role := "admin" }

/-- A sample moderator identity payload. -/
def monaP : Payload :=
  { userId := "u2", username := "mona", email := "m@x.com", role := "moderator" }

/-- A sample hash function standing in for bcrypt in witnesses. -/
def hashDemo (s : String) : String := "h" ++ s

/-- A sample comparison function standing in for `bcrypt.compare` in
witnesses, matching `hashDemo`. -/
def compareDemo (candidate stored : String) : Bool := hashDemo candidate == stored

/-- A sample stored admin record matching `aliceP`. -/
def aliceU : User :=
  { id := "u1", username := "alice", email := "a@x.com",
    password := hashDemo "secret1", role := "admin", isActive := true, createdAt := 0 }

/-- A sample stored ordinary user record. -/
def carolU : User :=
  { id := "u3", username := "carol", email := "c@x.com",
    password := hashDemo "secret3", role := "user", isActive := true, createdAt := 0 }

/-- A sample deactivated user record. -/
def dekeU : User :=
  { id := "u4", username := "deke", email := "d@x.com",
    password := hashDemo "secret4", role := "user", isActive := false, createdAt := 0 }

/-! ### Claims -/

/-- **C9.** Token round-trip: for every identity snapshot payload,
verifying a token issued for it at any time strictly less than 24 hours
(86400 seconds) after issuance succeeds and yields the input snapshot,
and verifying it 24 hours or more after issuance is rejected. -/
theorem token_roundtrip (p : Payload) (secret : String) (t0 t : Nat) :
    (t < t0 + 86400 → jwtVerify (jwtSign p secret t0) secret t = some p) ∧
    (t0 + 86400 ≤ t → jwtVerify (jwtSign p secret t0) secret t = none) := by
  constructor
  · intro h
    simp [jwtSign, jwtVerify, h]
  · intro h
    simp [jwtSign, jwtVerify]
    omega

/-- Witness for `token_roundtrip` at a concrete payload, issuance time 0,
and verification times 3600 and 86400. -/
theorem token_roundtrip_witness :
    jwtVerify (jwtSign aliceP "k" 0) "k" 3600 = some aliceP ∧
    jwtVerify (jwtSign aliceP "k" 0) "k" 86400 = none :=
  ⟨(token_roundtrip aliceP "k" 0 3600).1 (by decide),
   (token_roundtrip aliceP "k" 0 86400).2 (by decide)⟩

/-- **C1.** Self-action guard: each admin operation that targets a user
id from the request path (change role, toggle active status, delete)
returns a 400 rejection when the target id equals the acting admin's own
user id, with the database returned unchanged (so the rejection precedes
any repository write), and in the delete case every user present before,
the target included, is still present afterward. -/
theorem admin_self_action_guard (p : Payload) (brole : Option String)
    (bact : Option Bool) (db : Db) :
    adminChangeRole p brole p.userId db =
      (errResp 400 "Cannot modify your own role", db) ∧
    adminToggleStatus p bact p.userId db =
      (errResp 400 "Cannot deactivate yourself", db) ∧
    adminDeleteUser p p.userId db =
      (errResp 400 "Cannot delete yourself", db) ∧
    (∀ u, u ∈ db → u ∈ (adminDeleteUser p p.userId db).2) := by
  refine ⟨?_, ?_, ?_, ?_⟩
  · simp [adminChangeRole]
  · simp [adminToggleStatus]
  · simp [adminDeleteUser]
  · intro u hu
    simpa [adminDeleteUser] using hu

/-- Witness for `admin_self_action_guard`: the concrete admin `aliceP`
targeting their own id `"u1"` in a one-user database. -/
theorem admin_self_action_guard_witness :
    adminDeleteUser aliceP "u1" [aliceU] =
      (errResp 400 "Cannot delete yourself", [aliceU]) ∧
    aliceU ∈ (adminDeleteUser aliceP "u1" [aliceU]).2 :=
  ⟨(admin_self_action_guard aliceP none none [aliceU]).2.2.1,
   (admin_self_action_guard aliceP none none [aliceU]).2.2.2 aliceU (by decide)⟩

/-- **C2.** Role check of the authorization policy: with an
accepted-roles set, an attached identity whose role is not a member is
rejected with 403 and the message built from the joined role list; no
attached identity is rejected with 401; and a moderator calling the
admin-only role-change endpoint receives 403 "Access denied. Required
role: admin" with the database unchanged, so the underlying operation
never executes. -/
theorem authorize_role_check :
    (∀ (roles : List String) (p : Payload), p.role ∉ roles →
      authorize roles (some p) =
        some (errResp 403
          ("Access denied. Required role: " ++ String.intercalate " or " roles))) ∧
    (∀ roles : List String,
      authorize roles none = some (errResp 401 "User not authenticated.")) ∧
    (∀ (verify : String → Option Payload) (header : Option String) (t : String)
        (p : Payload) (brole : Option String) (targetId : String) (db : Db),
      extractToken header = some t → verify t = some p → p.role = "moderator" →
      roleChangeEndpoint verify header brole targetId db =
        (errResp 403 "Access denied. Required role: admin", db)) := by
  refine ⟨?_, ?_, ?_⟩
  · intro roles p h
    simp [authorize, h]
  · intro roles
    rfl
  · intro verify header t p brole targetId db ht hv hr
    simp [roleChangeEndpoint, runProtected, authenticate, ht, hv, authorize, hr]
    rfl

/-- Witness for `authorize_role_check`: the moderator payload `monaP`
against the role set `["admin"]`, standalone and through the composed
role-change route with a concrete verifier. -/
theorem authorize_role_check_witness :
    authorize ["admin"] (some monaP) =
      some (errResp 403 "Access denied. Required role: admin") ∧
    authorize ["admin"] none = some (errResp 401 "User not authenticated.") ∧
    roleChangeEndpoint (fun s => if s == "tkn" then some monaP else none)
        (some "Bearer tkn") (some "user") "u1" [aliceU] =
      (errResp 403 "Access denied. Required role: admin", [aliceU]) :=
  ⟨authorize_role_check.1 ["admin"] monaP (by decide),
   authorize_role_check.2.1 ["admin"],
   authorize_role_check.2.2 (fun s => if s == "tkn" then some monaP else none)
     (some "Bearer tkn") "tkn" monaP (some "user") "u1" [aliceU]
     (by decide) (by decide) rfl⟩

/-- **C3 counterexample.** The claim says the gate extracts the token as
the second *whitespace*-delimited field of the `Authorization` header
and rejects 401 only when that field is absent.  For the concrete header
`"Bearer  abc"` (two spaces) the second whitespace-delimited field is
present (`"abc"`), yet the gate returns the 401 missing-token rejection
even under a verifier that accepts every token, because the code splits
on single space characters and finds the empty fragment at index 1. -/
theorem authenticate_ws_counterexample :
    wsSecondField (some "Bearer  abc") = some "abc" ∧
    authenticate (fun _ => some aliceP) (some "Bearer  abc") =
      .error (errResp 401 "Access denied. No token provided.") :=
  ⟨by decide, rfl⟩

/-- **C3 (amended).** The gate extracts the token by splitting the
`Authorization` header on single space characters and taking the element
at index 1, a missing or empty element counting as absent: if absent it
rejects 401 without invoking token verification (the outcome is the same
for every verifier); if the extracted token fails verification it
rejects 403; and only when verification succeeds is the decoded identity
attached (`Except.ok`) and the downstream pipeline run with it. -/
theorem authenticate_token_extraction (verify : String → Option Payload)
    (header : Option String) :
    (extractToken header = none →
      ∀ v2 : String → Option Payload,
        authenticate v2 header =
          .error (errResp 401 "Access denied. No token provided.")) ∧
    (∀ t, extractToken header = some t → verify t = none →
      authenticate verify header =
        .error (errResp 403 "Invalid or expired token.")) ∧
    (∀ t p, extractToken header = some t → verify t = some p →
      authenticate verify header = .ok p ∧
      ∀ (roles : List String) (handler : Payload → Db → Response × Db) (db : Db),
        runProtected verify roles handler header db =
          (match authorize roles (some p) with
           | some r => (r, db)
           | none => handler p db)) := by
  refine ⟨?_, ?_, ?_⟩
  · intro h v2
    simp [authenticate, h]
  · intro t ht hv
    simp [authenticate, ht, hv]
  · intro t p ht hv
    constructor
    · simp [authenticate, ht, hv]
    · intro roles handler db
      simp [runProtected, authenticate, ht, hv]

/-- Witness for `authenticate_token_extraction`: the three paths at
concrete headers and verifiers — a bare `"Bearer"` header (absent
token), a rejecting verifier, and an accepting verifier with the
composed route. -/
theorem authenticate_token_extraction_witness :
    authenticate (fun _ => some aliceP) (some "Bearer") =
      .error (errResp 401 "Access denied. No token provided.") ∧
    authenticate (fun _ => none) (some "Bearer tkn") =
      .error (errResp 403 "Invalid or expired token.") ∧
    authenticate (fun s => if s == "tkn" then some aliceP else none)
      (some "Bearer tkn") = .ok aliceP :=
  ⟨(authenticate_token_extraction (fun _ => some aliceP) (some "Bearer")).1
      (by decide) (fun _ => some aliceP),
   (authenticate_token_extraction (fun _ => none) (some "Bearer tkn")).2.1
      "tkn" (by decide) rfl,
   ((authenticate_token_extraction (fun s => if s == "tkn" then some aliceP else none)
      (some "Bearer tkn")).2.2 "tkn" aliceP (by decide) (by decide)).1⟩

/-- A 400 validation rejection is never a 201 creation: helper for case
analysis on the signup branches. -/
theorem not_created_of_errResp400 (m : String) :
    ¬ ((errResp 400 m).status = 201) := by
  simp [errResp]

/-- **C4.** Signup with a requested role of `"admin"` silently
downgrades instead of rejecting: the request behaves exactly as the same
request with role `"user"` would, and given otherwise valid input it
succeeds with 201 and the created record's stored role is `"user"`. -/
theorem signup_admin_downgrade (hash : String → String) (secretKey : String)
    (now : Nat) (newId : String) (un em pw : String) (db : Db) :
    signup hash secretKey now newId ⟨some un, some em, some pw, some "admin"⟩ db =
      signup hash secretKey now newId ⟨some un, some em, some pw, some "user"⟩ db ∧
    (jsTrim un ≠ "" → jsToLower em ≠ "" → pw ≠ "" →
     emailMatch (jsToLower em) = true → ¬ pw.length < 6 →
     (¬ ∃ u ∈ db, u.username = jsTrim un ∨ u.email = jsToLower em) →
     (signup hash secretKey now newId ⟨some un, some em, some pw, some "admin"⟩ db).1.status
        = 201 ∧
     (signup hash secretKey now newId ⟨some un, some em, some pw, some "admin"⟩ db).2
        = db ++ [⟨newId, jsTrim un, jsToLower em, hash pw, "user", true, now⟩]) := by
  constructor
  · rfl
  · intro h1 h2 h3 h4 h5 h6
    simp [signup, h1, h2, h3, h4, h5, h6, roleEnum]

/-- Witness for `signup_admin_downgrade`: the spec scenario
`alice / a@x.com / secret1 / role admin` against an empty database. -/
theorem signup_admin_downgrade_witness :
    (signup hashDemo "k" 0 "u1"
        ⟨some "alice", some "a@x.com", some "secret1", some "admin"⟩ []).1.status = 201 ∧
    (signup hashDemo "k" 0 "u1"
        ⟨some "alice", some "a@x.com", some "secret1", some "admin"⟩ []).2 =
      [⟨"u1", "alice", "a@x.com", hashDemo "secret1", "user", true, 0⟩] :=
  (signup_admin_downgrade hashDemo "k" 0 "u1" "alice" "a@x.com" "secret1" []).2
    (by decide) (by decide) (by decide) (by decide) (by decide) (by decide)

/-- **C5 counterexample.** A successful signup does not always store
role `"user"`: the concrete valid signup `bob / b@x.com / secret1` with
requested role `"moderator"` succeeds with 201 and stores role
`"moderator"`, which is not `"user"`. -/
theorem signup_moderator_counterexample :
    (signup hashDemo "k" 0 "u5"
        ⟨some "bob", some "b@x.com", some "secret1", some "moderator"⟩ []).1.status = 201 ∧
    (signup hashDemo "k" 0 "u5"
        ⟨some "bob", some "b@x.com", some "secret1", some "moderator"⟩ []).2 =
      [⟨"u5", "bob", "b@x.com", hashDemo "secret1", "moderator", true, 0⟩] ∧
    ("moderator" : String) ≠ "user" := by
  refine ⟨by decide, by decide, by decide⟩

/-- **C5 (amended).** For every successful signup the created user's
role is never `"admin"`: it is `"user"` whenever the supplied role is
`"admin"`, `"user"`, or omitted, but a caller may self-assign
`"moderator"` at signup; an `"admin"` role can only be obtained later
through the admin role-change operation. -/
theorem signup_role_never_admin (hash : String → String) (secretKey : String)
    (now : Nat) (newId : String) (b : SignupBody) (db : Db) :
    (signup hash secretKey now newId b db).1.status = 201 →
    ∃ u', (signup hash secretKey now newId b db).2 = db ++ [u'] ∧
      u'.role ≠ "admin" ∧ (u'.role = "user" ∨ u'.role = "moderator") ∧
      ((b.role = some "admin" ∨ b.role = some "user" ∨ b.role = none) →
        u'.role = "user") := by
  rcases b with ⟨bu, be, bp, br⟩
  cases bu <;> cases be <;> cases bp <;>
    simp only [signup] <;>
    try (intro h; exact absurd h (not_created_of_errResp400 _))
  rcases br with _ | r
  · simp only [Option.getD_none, if_neg (by decide : ¬("user" : String) = "admin")]
    split_ifs with h1 h2 h3 h4 h5 <;>
      try (intro h; exact absurd h (not_created_of_errResp400 _))
    intro _
    exact ⟨_, rfl, (by decide : ("user" : String) ≠ "admin"), Or.inl rfl, fun _ => rfl⟩
  · by_cases hr : r = "admin"
    · subst hr
      simp only [Option.getD_some, if_pos rfl]
      split_ifs with h1 h2 h3 h4 h5 <;>
        try (intro h; exact absurd h (not_created_of_errResp400 _))
      intro _
      exact ⟨_, rfl, (by decide : ("user" : String) ≠ "admin"), Or.inl rfl, fun _ => rfl⟩
    · simp only [Option.getD_some, if_neg hr]
      split_ifs with h1 h2 h3 h4 h5 <;>
        try (intro h; exact absurd h (not_created_of_errResp400 _))
      intro _
      have h4' : r ∈ roleEnum := by
        first
        | exact not_not.mp h4
        | exact h4
      refine ⟨_, rfl, hr, ?_, ?_⟩
      · simp only [roleEnum, List.mem_cons, List.not_mem_nil, or_false] at h4'
        rcases h4' with h | h | h
        · exact Or.inl h
        · exact absurd h hr
        · exact Or.inr h
      · rintro (hb | hb | hb)
        · exact absurd (Option.some.inj hb) hr
        · exact Option.some.inj hb
        · exact hb.elim

/-- Witness for `signup_role_never_admin`: the successful moderator
signup of the counterexample, whose created record indeed has a role
other than `"admin"`. -/
theorem signup_role_never_admin_witness :
    ∃ u', (signup hashDemo "k" 0 "u5"
        ⟨some "bob", some "b@x.com", some "secret1", some "moderator"⟩ []).2 = [] ++ [u'] ∧
      u'.role ≠ "admin" ∧ (u'.role = "user" ∨ u'.role = "moderator") ∧
      (((some "moderator" : Option String) = some "admin" ∨
        (some "moderator" : Option String) = some "user" ∨
        (some "moderator" : Option String) = none) → u'.role = "user") :=
  signup_role_never_admin hashDemo "k" 0 "u5"
    ⟨some "bob", some "b@x.com", some "secret1", some "moderator"⟩ [] (by decide)

/-- **C6.** Anti-enumeration in login: a request whose email matches no
user and a request whose email matches an active user but whose password
is wrong produce the identical rejection, status 401 with message
"Invalid credentials", with the database unchanged in both cases. -/
theorem login_no_enumeration (compare : String → String → Bool)
    (secretKey : String) (now : Nat) (e1 pw1 e2 pw2 : String) (db : Db) (u : User) :
    findByEmail db e1 = none →
    findByEmail db e2 = some u → u.isActive = true → compare pw2 u.password = false →
    login compare secretKey now e1 pw1 db = (errResp 401 "Invalid credentials", db) ∧
    login compare secretKey now e2 pw2 db = (errResp 401 "Invalid credentials", db) := by
  intro h1 h2 ha hc
  constructor
  · simp [login, h1]
  · simp [login, h2, ha, hc]

/-- Witness for `login_no_enumeration`: a one-user database where
`nobody@x.com` matches no user and `c@x.com` matches the active `carolU`
whose password check fails on `"wrongpw"`. -/
theorem login_no_enumeration_witness :
    login compareDemo "k" 0 "nobody@x.com" "whatever" [carolU] =
      (errResp 401 "Invalid credentials", [carolU]) ∧
    login compareDemo "k" 0 "c@x.com" "wrongpw" [carolU] =
      (errResp 401 "Invalid credentials", [carolU]) :=
  login_no_enumeration compareDemo "k" 0 "nobody@x.com" "whatever" "c@x.com" "wrongpw"
    [carolU] carolU (by decide) (by decide) (by decide) (by decide)

/-- **C10.** A login whose email matches a deactivated user is rejected
403 "Account is deactivated" regardless of the supplied password: the
conclusion holds for every password and every comparison function, so
the active-status check precedes password verification. -/
theorem login_deactivated_before_password (compare : String → String → Bool)
    (secretKey : String) (now : Nat) (e pw : String) (db : Db) (u : User) :
    findByEmail db e = some u → u.isActive = false →
    login compare secretKey now e pw db = (errResp 403 "Account is deactivated", db) := by
  intro h hi
  simp [login, h, hi]

/-- Witness for `login_deactivated_before_password`: the deactivated
`dekeU`, once with the correct password and once with a wrong one. -/
theorem login_deactivated_before_password_witness :
    login compareDemo "k" 0 "d@x.com" "secret4" [dekeU] =
      (errResp 403 "Account is deactivated", [dekeU]) ∧
    login compareDemo "k" 0 "d@x.com" "wrongpw" [dekeU] =
      (errResp 403 "Account is deactivated", [dekeU]) :=
  ⟨login_deactivated_before_password compareDemo "k" 0 "d@x.com" "secret4" [dekeU] dekeU
      (by decide) (by decide),
   login_deactivated_before_password compareDemo "k" 0 "d@x.com" "wrongpw" [dekeU] dekeU
      (by decide) (by decide)⟩

/-- No key of the document is the `password` field. -/
def docNoPw (d : Doc) : Bool := d.all fun kv => kv.1 != "password"

/-- Every user view in the response — the `user` field if present and
each element of `users` — omits the `password` key. -/
def respNoPw (r : Response) : Bool :=
  (match r.user with
   | none => true
   | some d => docNoPw d) && r.users.all docNoPw

/-- The explicit four-field public object never carries `password`. -/
theorem docNoPw_publicDoc (u : User) : docNoPw (publicDoc u) = true := rfl

/-- A `.select('-password')` projection never carries `password`. -/
theorem docNoPw_docMinusPassword (u : User) : docNoPw (docMinusPassword u) = true := rfl

/-- Error responses carry no user views at all. -/
theorem respNoPw_errResp (st : Nat) (m : String) : respNoPw (errResp st m) = true := rfl

/-- Mapping the minus-password projection over any record list yields
only password-free views. -/
theorem all_docNoPw_map (l : List User) :
    (l.map docMinusPassword).all docNoPw = true := by
  rw [List.all_eq_true]
  intro d hd
  rw [List.mem_map] at hd
  obtain ⟨u, _, rfl⟩ := hd
  exact docNoPw_docMinusPassword u

/-- **C8.** No operation that returns user views — signup, login, get
profile, update profile, admin list users, admin change role, admin
toggle status, moderator active-user view — ever includes the stored
password hash field in a returned view, for any input and any database
state. -/
theorem no_password_in_views (hash : String → String)
    (compare : String → String → Bool) (key : String) (now : Nat) (nid : String)
    (b : SignupBody) (e pw : String) (p : Payload) (bu be brole : Option String)
    (bact : Option Bool) (tid : String) (db : Db) :
    respNoPw (signup hash key now nid b db).1 = true ∧
    respNoPw (login compare key now e pw db).1 = true ∧
    respNoPw (getProfile p db).1 = true ∧
    respNoPw (updateProfile p bu be db).1 = true ∧
    respNoPw (adminListUsers db).1 = true ∧
    respNoPw (adminChangeRole p brole tid db).1 = true ∧
    respNoPw (adminToggleStatus p bact tid db).1 = true ∧
    respNoPw (moderatorActiveUsers db).1 = true := by
  refine ⟨?_, ?_, ?_, ?_, ?_, ?_, ?_, ?_⟩
  · rcases b with ⟨bu', be', bp', br'⟩
    cases bu' <;> cases be' <;> cases bp' <;> unfold signup <;> try rfl
    dsimp only
    split_ifs <;> rfl
  · rcases hu : findByEmail db e with _ | u
    · simp only [login, hu]
      rfl
    · simp only [login, hu]
      split_ifs <;> rfl
  · unfold getProfile
    rcases findById db p.userId with _ | u <;> rfl
  · unfold updateProfile
    dsimp only
    split_ifs <;> try rfl
    all_goals rcases hf : findById db p.userId with _ | u
    all_goals try rfl
    all_goals try dsimp only
    all_goals split_ifs <;> rfl
  · simp [adminListUsers, respNoPw, all_docNoPw_map]
  · unfold adminChangeRole
    split_ifs <;> try rfl
    rcases brole with _ | r
    · rfl
    · dsimp only
      split_ifs <;> try rfl
      all_goals rcases hf : findById db tid with _ | u
      all_goals try rfl
  · unfold adminToggleStatus
    split_ifs <;> try rfl
    all_goals rcases hf : findById db tid with _ | u
    all_goals try rfl
  · simp [moderatorActiveUsers, respNoPw, all_docNoPw_map]

/-- Every stored role lies in the closed role set. -/
def rolesOk (db : Db) : Bool := db.all fun u => decide (u.role ∈ roleEnum)

/-- Unfolding of `rolesOk` to a membership statement. -/
theorem rolesOk_iff (db : Db) :
    rolesOk db = true ↔ ∀ u ∈ db, u.role ∈ roleEnum := by
  simp [rolesOk, List.all_eq_true]

/-- Appending a record with a closed-set role preserves the role
invariant. -/
theorem rolesOk_append (db : Db) (u : User) (h : rolesOk db = true)
    (hu : u.role ∈ roleEnum) : rolesOk (db ++ [u]) = true := by
  rw [rolesOk_iff] at h ⊢
  intro w hw
  rcases List.mem_append.mp hw with hw | hw
  · exact h w hw
  · rw [List.mem_singleton] at hw
    subst hw
    exact hu

/-- A `findByIdAndUpdate`-style map that replaces the record at `tid` by
one with a closed-set role preserves the role invariant. -/
theorem rolesOk_map_update (db : Db) (tid : String) (u' : User)
    (hmem : u'.role ∈ roleEnum) (h : rolesOk db = true) :
    rolesOk (db.map fun v => if v.id == tid then u' else v) = true := by
  rw [rolesOk_iff] at h ⊢
  intro w hw
  rw [List.mem_map] at hw
  obtain ⟨v, hv, hw⟩ := hw
  split at hw
  · subst hw
    exact hmem
  · subst hw
    exact h v hv

/-- **C7.** Role closure: the admin role-change endpoint rejects any
role outside the closed set with 400 "Invalid role" and an unchanged
database; signup rejects a supplied role outside the closed set with a
400 validation error and an unchanged database; and every operation
preserves the invariant that all stored roles are members of the closed
set. -/
theorem role_closure :
    (∀ (p : Payload) (r tid : String) (db : Db),
      r ∉ roleEnum → tid ≠ p.userId →
      adminChangeRole p (some r) tid db = (errResp 400 "Invalid role", db)) ∧
    (∀ (hash : String → String) (key : String) (now : Nat) (nid : String)
        (b : SignupBody) (r : String) (db : Db),
      b.role = some r → r ∉ roleEnum →
      (signup hash key now nid b db).1.status = 400 ∧
      (signup hash key now nid b db).2 = db) ∧
    (∀ (hash : String → String) (key : String) (now : Nat) (nid : String)
        (b : SignupBody) (db : Db), rolesOk db = true →
      rolesOk (signup hash key now nid b db).2 = true) ∧
    (∀ (compare : String → String → Bool) (key : String) (now : Nat)
        (e pw : String) (db : Db), rolesOk db = true →
      rolesOk (login compare key now e pw db).2 = true) ∧
    (∀ (p : Payload) (db : Db), rolesOk db = true →
      rolesOk (getProfile p db).2 = true) ∧
    (∀ (p : Payload) (bu be : Option String) (db : Db), rolesOk db = true →
      rolesOk (updateProfile p bu be db).2 = true) ∧
    (∀ db : Db, rolesOk db = true → rolesOk (adminListUsers db).2 = true) ∧
    (∀ (p : Payload) (brole : Option String) (tid : String) (db : Db),
      rolesOk db = true → rolesOk (adminChangeRole p brole tid db).2 = true) ∧
    (∀ (p : Payload) (bact : Option Bool) (tid : String) (db : Db),
      rolesOk db = true → rolesOk (adminToggleStatus p bact tid db).2 = true) ∧
    (∀ (p : Payload) (tid : String) (db : Db),
      rolesOk db = true → rolesOk (adminDeleteUser p tid db).2 = true) ∧
    (∀ db : Db, rolesOk db = true → rolesOk (moderatorActiveUsers db).2 = true) := by
  refine ⟨?_, ?_, ?_, ?_, ?_, ?_, ?_, ?_, ?_, ?_, ?_⟩
  · intro p r tid db hr htid
    simp [adminChangeRole, htid, hr]
  · intro hash key now nid b r db hbr hr
    rcases b with ⟨bu, be, bp, br⟩
    subst hbr
    have hradmin : ¬ r = "admin" :=
      fun hc => hr (hc ▸ (by decide : ("admin" : String) ∈ roleEnum))
    cases bu <;> cases be <;> cases bp <;>
      simp only [signup] <;>
      try first
      | exact ⟨rfl, trivial⟩
      | exact ⟨rfl, rfl⟩
    simp only [Option.getD_some, if_neg hradmin]
    split_ifs with h1 h2 h3 <;>
      try first
      | exact ⟨rfl, trivial⟩
      | exact ⟨rfl, rfl⟩
  · intro hash key now nid b db h
    rcases b with ⟨bu, be, bp, br⟩
    cases bu <;> cases be <;> cases bp <;>
      simp only [signup] <;>
      try exact h
    rcases br with _ | r
    · simp only [Option.getD_none, if_neg (by decide : ¬("user" : String) = "admin")]
      split_ifs <;> try exact h
      refine rolesOk_append db _ h ?_
      exact (by decide : ("user" : String) ∈ roleEnum)
    · by_cases hradmin : r = "admin"
      · subst hradmin
        simp only [Option.getD_some, if_pos rfl]
        split_ifs <;> try exact h
        refine rolesOk_append db _ h ?_
        exact (by decide : ("user" : String) ∈ roleEnum)
      · simp only [Option.getD_some, if_neg hradmin]
        split_ifs with h1 h2 h3 h4 h5 <;> try exact h
        refine rolesOk_append db _ h ?_
        exact h4
  · intro compare key now e pw db h
    rcases hu : findByEmail db e with _ | u
    · simp only [login, hu]
      exact h
    · simp only [login, hu]
      split_ifs <;> exact h
  · intro p db h
    exact h
  · intro p bu be db h
    unfold updateProfile
    dsimp only
    split_ifs <;> try exact h
    all_goals rcases hf : findById db p.userId with _ | u
    all_goals try exact h
    all_goals try dsimp only
    all_goals try split_ifs <;> try exact h
    all_goals refine rolesOk_map_update db u.id _ ?_ h
    all_goals exact (rolesOk_iff db).mp h u (List.mem_of_find?_eq_some hf)
  · intro db h
    exact h
  · intro p brole tid db h
    unfold adminChangeRole
    split_ifs with hself <;> try exact h
    rcases brole with _ | r
    · exact h
    · dsimp only
      split_ifs with hmem <;> try exact h
      rcases hf : findById db tid with _ | u
      · exact h
      · refine rolesOk_map_update db tid _ ?_ h
        exact hmem
  · intro p bact tid db h
    unfold adminToggleStatus
    split_ifs <;> try exact h
    all_goals rcases hf : findById db tid with _ | u
    all_goals try exact h
    all_goals refine rolesOk_map_update db tid _ ?_ h
    all_goals have hu : u.role ∈ roleEnum :=
      (rolesOk_iff db).mp h u (List.mem_of_find?_eq_some hf)
    all_goals rcases bact with _ | bb
    all_goals exact hu
  · intro p tid db h
    unfold adminDeleteUser
    split_ifs <;> try exact h
    rcases hf : findById db tid with _ | u
    · exact h
    · rw [rolesOk_iff] at h ⊢
      intro w hw
      exact h w (List.mem_of_mem_eraseP hw)
  · intro db h
    exact h

/-- Witness for `role_closure`: the role `"superuser"` rejected by the
role-change endpoint and by signup, and invariant preservation across a
concrete delete. -/
theorem role_closure_witness :
    adminChangeRole aliceP (some "superuser") "u3" [aliceU, carolU] =
      (errResp 400 "Invalid role", [aliceU, carolU]) ∧
    (signup hashDemo "k" 0 "u6"
        ⟨some "eve", some "e@x.com", some "secret6", some "superuser"⟩ []).1.status = 400 ∧
    (signup hashDemo "k" 0 "u6"
        ⟨some "eve", some "e@x.com", some "secret6", some "superuser"⟩ []).2 = [] ∧
    rolesOk (adminDeleteUser aliceP "u3" [aliceU, carolU]).2 = true :=
  ⟨role_closure.1 aliceP "superuser" "u3" [aliceU, carolU] (by decide) (by decide),
   (role_closure.2.1 hashDemo "k" 0 "u6"
      ⟨some "eve", some "e@x.com", some "secret6", some "superuser"⟩ "superuser" []
      rfl (by decide)).1,
   (role_closure.2.1 hashDemo "k" 0 "u6"
      ⟨some "eve", some "e@x.com", some "secret6", some "superuser"⟩ "superuser" []
      rfl (by decide)).2,
   role_closure.2.2.2.2.2.2.2.2.2.1 aliceP "u3" [aliceU, carolU] (by decide)⟩

end RBAC

